import Mathlib

/-!
Shallow embedding of `src/python_sample/mrr2csv.py` (version 1.3.5).

The script reads Missing Register Readings report files, extracts labelled
integer fields by anchor-phrase search, resolves a billing month from the
schedule date and read cycle, accumulates results in a 1300-row matrix
indexed by `billingMonth * 100 + readCycle`, and renders the matrix to CSV
rows grouped by month.

Python values stored in the matrix and result arrays are either strings
(`""`, `"Missing"`, raw report lines) or integers, so cells are modelled by
the sum type `Val`.  The matrix is modelled as a total function from
(row, column) to `Val`; Python's list-index bound checks are modelled
explicitly (`pyIdx`) where the script indexes with a computed index.
Run-terminating events (`sys.exit` calls and uncaught Python exceptions such
as `NameError` / `ValueError` / `TypeError` / `IndexError`) are modelled as
`Except Err`.
-/

namespace Mrr2Csv

/-- A Python value as stored by the script: a string or an integer. -/
inductive Val where
  | str : String → Val
  | int : Int → Val
deriving DecidableEq

/-- Run-terminating conditions: `sys.exit` after a field-parse failure
(lines 208-217), and uncaught Python exceptions (`NameError` on an unset
module-level variable, `ValueError` from `datetime.date` on a month outside
1..12, `TypeError` from `month * 100` on a string month, `IndexError` from an
out-of-range list index). -/
inductive Err where
  | fieldParse
  | nameError
  | dateError
  | typeError
  | indexError
deriving DecidableEq

/-- The matrix state: row and column index to stored value. -/
abbrev Mat := Nat → Nat → Val

/-! ### Compiled-in configuration constants (lines 63-80) -/

/-- `searchArray` (lines 63-69): the anchor phrases, in output column order. -/
def searchArray : List String :=
  ["Total number of PODs requested - On Cycle",
   "Number of PODs OC with readings provided for entire configuration",
   "Total number of PODs requested - Exceptions",
   "Number of PODs EXC with readings provided for entire configuration",
   "Number of PODs EXC with no readings provided at all",
   "Number of PODs EXC with actual readings provided",
   "Number of PODs EXC with estimated readings provided"]

/-- `csvHeadingArray` (lines 70-77): CSV column headings. -/
def csvHeadingArray : List String :=
  ["Cycle",
   "Total Number of PODs Requested on Cycle",
   "Number of PODs with Readings - Entire Config (On Cycle)",
   "Total Number of PODs Requested - Exceptions",
   "Number of PODs EXC with Readings Provided for Entire Configuration",
   "Estimated Readings Provided - Exceptions",
   "Actual Readings Provided - Exceptions",
   "No Readings Provided at All (Exceptions)"]

/-- `reportFileMonthsArray` (lines 78-79): three-letter month abbreviations. -/
def reportFileMonthsArray : List String :=
  ["JAN", "FEB", "MAR", "APR", "MAY", "JUN", "JUL", "AUG", "SEP", "OCT", "NOV", "DEC"]

/-- `cyclesPerBillingMonth` (line 80). -/
def cyclesPerBillingMonth : Nat := 21

/-- `len(searchArray)` = `len(resultsArray)` = 7, the number of data fields. -/
def numFields : Nat := searchArray.length

/-! ### Python string primitives -/

/-- Does `pat` occur starting at the head of `l`?  (Character-wise prefix
test, written out to keep the development self-contained.) -/
def matchesAt : List Char → List Char → Bool
  | [], _ => true
  | _ :: _, [] => false
  | p :: ps, c :: cs => p == c && matchesAt ps cs

/-- Does `pat` occur as a contiguous sublist of `l`? -/
def subOccurs (pat : List Char) : List Char → Bool
  | [] => pat.isEmpty
  | c :: cs => matchesAt pat (c :: cs) || subOccurs pat cs

/-- Python's `pat in line` substring test (on code points, as Python strings
are sequences of code points). -/
def strContains (line pat : String) : Bool :=
  subOccurs pat.data line.data

/-- Python's `s[a:b]` slice for `0 ≤ a ≤ b`: code points `a..b-1`, clamped to
the string length. -/
def pySlice (s : String) (a b : Nat) : String :=
  ⟨(s.data.drop a).take (b - a)⟩

/-- Python's `s[a:]` slice for `0 ≤ a`, clamped. -/
def pyDrop (s : String) (a : Nat) : String :=
  ⟨s.data.drop a⟩

/-- Decimal digit test. -/
def isDig (c : Char) : Bool := '0' ≤ c && c ≤ '9'

/-- Value of a list of decimal digits. -/
def digitsVal (l : List Char) : Nat :=
  l.foldl (fun n c => n * 10 + (c.toNat - '0'.toNat)) 0

/-- Strip leading and trailing whitespace (Python `int()` ignores surrounding
whitespace). -/
def trimWs (l : List Char) : List Char :=
  ((l.dropWhile Char.isWhitespace).reverse.dropWhile Char.isWhitespace).reverse

/-- Python's `int(s)` on a base-10 string: optional surrounding whitespace,
optional sign, then at least one digit; anything else raises `ValueError`,
modelled as `none`.  (Digit-group underscores and non-ASCII digits, which
CPython also accepts, do not occur in this data and are not modelled.) -/
def parsePyInt (s : String) : Option Int :=
  match trimWs s.data with
  | [] => none
  | '+' :: rest =>
      if rest ≠ [] ∧ rest.all isDig then some (digitsVal rest : Int) else none
  | '-' :: rest =>
      if rest ≠ [] ∧ rest.all isDig then some (-(digitsVal rest : Int)) else none
  | l =>
      if l.all isDig then some (digitsVal l : Int) else none

/-- `datetime.date(1900, m, 1).strftime('%B')`: the full English month name;
`datetime.date` raises `ValueError` (`none`) when `m` is outside 1..12. -/
def monthName (m : Int) : Option String :=
  if m = 1 then some "January"
  else if m = 2 then some "February"
  else if m = 3 then some "March"
  else if m = 4 then some "April"
  else if m = 5 then some "May"
  else if m = 6 then some "June"
  else if m = 7 then some "July"
  else if m = 8 then some "August"
  else if m = 9 then some "September"
  else if m = 10 then some "October"
  else if m = 11 then some "November"
  else if m = 12 then some "December"
  else none

/-! ### The output matrix (lines 153-157) -/

/-- A single Python list assignment `m[r][c] = v` on the matrix. -/
def setM (m : Mat) (r c : Nat) (v : Val) : Mat :=
  fun r' c' => if r' = r ∧ c' = c then v else m r' c'

/-- Lines 154-157: `outputMatrix` starts as 1300 rows of `len(searchArray)+3`
columns of `""`; then `for i in range(1, 13): for j in range(0, 100):
outputMatrix[i*100+j][0] = i` pre-fills column 0 of rows 100..1299 with the
month number. -/
def outputMatrixInit : Mat :=
  (List.range' 1 12).foldl
    (fun m i =>
      (List.range 100).foldl (fun m' j => setM m' (i * 100 + j) 0 (Val.int (i : Int))) m)
    (fun _ _ => Val.str "")

/-- Resolution of a Python list index `i` against a list of length `n`:
negative indices count from the end; out-of-range raises `IndexError`
(`none`). -/
def pyIdx (n : Nat) (i : Int) : Option Nat :=
  if 0 ≤ i then
    if i < (n : Int) then some i.toNat else none
  else
    if -(n : Int) ≤ i then some (i + (n : Int)).toNat else none

/-- The linear cell address `billingMonth * 100 + readCycle` used at
lines 240-241 and 265-276. -/
def cellIndex (billingMonth readCycle : Int) : Int :=
  billingMonth * 100 + readCycle

/-- Lines 239-241: `for i in range(0, len(resultsArray))`, write
`outputMatrix[row][i+1] = resultsArray[i]` and (inside the same loop body)
`outputMatrix[row][len(resultsArray)+2] = 1`.  Here `row` is the already
resolved row index and `len(resultsArray) + 2 = 9`. -/
def put (mat : Mat) (row : Nat) (vs : List Val) : Mat :=
  (List.range vs.length).foldl
    (fun m i => setM (setM m row (i + 1) (vs.getD i (Val.str ""))) row 9 (Val.int 1))
    mat

/-! ### Per-file scanning (lines 160-241)

`readCycle`, `reportFileDay`, `reportFileMonth` and `reportFileYear` are
module-level Python variables: they are assigned inside the per-line
scanning branches and are NEVER reset between files, so their values leak
from one file to the next.  `none` models "never assigned so far"; reading
such a variable raises `NameError`.  `resultsArray` IS re-created for every
file (lines 171-173). -/

structure ScanSt where
  readCycle : Option Int
  reportFileDay : Option Int
  reportFileMonth : Option Int
  reportFileYear : Option Int
  results : List Val
deriving DecidableEq

/-- State before the first file: no module-level variable assigned yet. -/
def initialScanSt : ScanSt :=
  { readCycle := none, reportFileDay := none, reportFileMonth := none,
    reportFileYear := none, results := [] }

/-- Lines 202-204 applied to one line: for each anchor phrase present in the
line, overwrite that phrase's slot with the whole line.  (Each later
matching line in the file overwrites the slot again.) -/
def anchorStep (line : String) (rs : List Val) : List Val :=
  List.zipWith (fun pat r => if strContains line pat then Val.str line else r)
    searchArray rs

/-- Lines 176-204 applied to one line, in source order: the "Read Cycle \x7b"
branch (lines 179-186), the "Schedule Dates" branch (lines 189-199), then the
anchor scan (lines 202-204).

In the schedule branch the three parses run in a single `try`; any failure
lands in `except`, which assigns `reportFileDay = 0` and
`reportFileMonth = 0` (leaving the year as it was), so the net effect is
all-three-or-reset as modelled here. -/
def scanLine (st : ScanSt) (line : String) : ScanSt :=
  let st :=
    if strContains line "Read Cycle \x7b" then
      { st with readCycle := some ((parsePyInt (pySlice line 39 41)).getD 0) }
    else st
  let st :=
    if strContains line "Schedule Dates" then
      match parsePyInt (pySlice line 46 48),
            reportFileMonthsArray.findIdx? (fun s => s = pySlice line 49 52),
            parsePyInt (pySlice line 53 55) with
      | some d, some mi, some y =>
          { st with reportFileDay := some d, reportFileMonth := some ((mi : Int) + 1),
                    reportFileYear := some (2000 + y) }
      | _, _, _ =>
          { st with reportFileDay := some 0, reportFileMonth := some 0 }
    else st
  { st with results := anchorStep line st.results }

/-- Lines 202-204 over a whole file, starting from the all-`"Missing"`
array of lines 171-173: the anchor-slot contents after the scan. -/
def anchorResults (lines : List String) : List Val :=
  lines.foldl (fun rs line => anchorStep line rs)
    (searchArray.map fun _ => Val.str "Missing")

/-- Lines 210-217 for one slot: a slot still holding `"Missing"` is kept;
otherwise the slot holds a matched line, whose tail from offset 73 must
parse as an integer — failure is `sys.exit` (fatal).  (An integer slot
cannot occur at this point; Python would raise `TypeError` subscripting
it.) -/
def parseEntry (v : Val) : Except Err Val :=
  if v = Val.str "Missing" then Except.ok v
  else
    match v with
    | Val.str line =>
        match parsePyInt (pyDrop line 73) with
        | some n => Except.ok (Val.int n)
        | none => Except.error Err.fieldParse
    | Val.int _ => Except.error Err.typeError

/-- Lines 209-217: strip the labels off every non-`"Missing"` slot, left to
right, halting the run at the first parse failure. -/
def parseResults : List Val → Except Err (List Val)
  | [] => Except.ok []
  | v :: rest =>
      match parseEntry v with
      | Except.error e => Except.error e
      | Except.ok v' =>
          match parseResults rest with
          | Except.error e => Except.error e
          | Except.ok rest' => Except.ok (v' :: rest')

/-- Lines 221-226: the billing-month heuristic. -/
def billingMonth (scheduleDay scheduleMonth readCycle : Int) : Int :=
  if scheduleDay < 10 ∧ readCycle > 10 then scheduleMonth - 1
  else if scheduleDay > (cyclesPerBillingMonth : Int) - 1 ∧ readCycle < 10 then
    scheduleMonth + 1
  else scheduleMonth

/-- Lines 220-241: the merge of one file's parsed results into the matrix.
Reads of never-assigned module variables raise `NameError`; the progress
message at lines 230-233 calls `datetime.date(1900, reportFileMonth, 1)`,
reads `reportFileYear`, and calls `datetime.date(1900, billingMonth, 1)`, in
that order, so a month outside 1..12 raises `ValueError` before any matrix
write; the row index is bounds-checked as Python list indexing does. -/
def mergeFile (st : ScanSt) (mat : Mat) : Except Err Mat :=
  match st.reportFileDay with
  | none => Except.error Err.nameError
  | some d =>
    if d > 0 then
      match st.readCycle with
      | none => Except.error Err.nameError
      | some rc =>
        match st.reportFileMonth with
        | none => Except.error Err.nameError
        | some m =>
          let bm := billingMonth d m rc
          if 1 ≤ m ∧ m ≤ 12 then
            match st.reportFileYear with
            | none => Except.error Err.nameError
            | some _ =>
              if 1 ≤ bm ∧ bm ≤ 12 then
                match pyIdx 1300 (cellIndex bm rc) with
                | none => Except.error Err.indexError
                | some row => Except.ok (put mat row st.results)
              else Except.error Err.dateError
          else Except.error Err.dateError
    else Except.ok mat

/-- Lines 160-241 for one file (given its lines): reset `resultsArray` to
all-`"Missing"` (lines 171-173), scan every line (lines 176-204), strip the
labels (lines 209-217), then merge into the matrix (lines 220-241).  The
returned state carries the module-level variables into the next file. -/
def processFile (st : ScanSt) (mat : Mat) (lines : List String) :
    Except Err (ScanSt × Mat) :=
  let st1 := { st with results := searchArray.map fun _ => Val.str "Missing" }
  let st2 := lines.foldl scanLine st1
  match parseResults st2.results with
  | Except.error e => Except.error e
  | Except.ok res =>
      let st3 := { st2 with results := res }
      match mergeFile st3 mat with
      | Except.error e => Except.error e
      | Except.ok mat' => Except.ok (st3, mat')

/-- The whole file loop (lines 160-241) over the listed files, starting from
the freshly initialized matrix and with no module-level variable assigned. -/
def processFiles (files : List (List String)) : Except Err (ScanSt × Mat) :=
  files.foldlM (fun p lines => processFile p.1 p.2 lines)
    (initialScanSt, outputMatrixInit)

/-! ### Output stage (lines 243-283) -/

/-- Lines 244-248: `outputMonthsArray` — scan all 1300 rows in index order
and collect each row-0 value whose row is flagged (`[9] == 1`, with
`len(resultsArray) + 2 = 9`) and is not already collected. -/
def outputMonthsArray (mat : Mat) : List Val :=
  (List.range 1300).foldl
    (fun acc i =>
      if mat i 9 = Val.int 1 then
        if mat i 0 ∉ acc then acc ++ [mat i 0] else acc
      else acc)
    []

/-- Lines 263-268: the `outputArray` contents for one (month, cycle) after
the column loop — every column is copied from the matrix row, and slot 0 is
then overwritten with the cycle number (the overwrite happens inside the
column loop in the source, with the same net effect). -/
def fillOutputRow (mat : Mat) (row : Nat) (cycle : Nat) : List Val :=
  (List.range (numFields + 1)).map fun col =>
    if col = 0 then Val.int (cycle : Int) else mat row col

/-- Lines 261-283: the body of the month/cycle loop for a single cycle,
appending to the accumulated rows.  In source order: the matrix row is read
first (line 265, `IndexError` on a bad index), the section title is produced
by `datetime.date(1900, month, 1)` (`ValueError` outside 1..12), then the
data or placeholder row, then the separator after the last cycle. -/
def emitCycle (mat : Mat) (m : Int) (rows : List (List Val)) (cycle : Nat) :
    Except Err (List (List Val)) :=
  match pyIdx 1300 (cellIndex m (cycle : Int)) with
  | none => Except.error Err.indexError
  | some row =>
    match (if cycle = 1 then
            match monthName m with
            | some nm => Except.ok [[Val.str nm], csvHeadingArray.map Val.str]
            | none => Except.error Err.dateError
          else Except.ok ([] : List (List Val))) with
    | Except.error e => Except.error e
    | Except.ok head =>
      let dataRow :=
        if mat row 9 = Val.int 1 then fillOutputRow mat row cycle
        else Val.int (cycle : Int) :: List.replicate numFields (Val.str "")
      let tail := if cycle = cyclesPerBillingMonth then [[Val.str ""]] else []
      Except.ok (rows ++ head ++ [dataRow] ++ tail)

/-- One iteration of the month loop (lines 261-283): run the cycle loop for
an integer month; a string month value makes `month * 100` raise
`TypeError`. -/
def emitMonth (mat : Mat) (rows : List (List Val)) (mv : Val) :
    Except Err (List (List Val)) :=
  match mv with
  | Val.str _ => Except.error Err.typeError
  | Val.int m => (List.range' 1 cyclesPerBillingMonth).foldlM (emitCycle mat m) rows

/-- Lines 256-283: iterate `outputMonthsArray` and, per month, cycles
1..`cyclesPerBillingMonth`, producing the CSV rows in order. -/
def buildRows (mat : Mat) : Except Err (List (List Val)) :=
  (outputMonthsArray mat).foldlM (emitMonth mat) []

/-- The whole run on the given files' lines: process every file, then build
the CSV rows.  `sys.exit` or an uncaught exception anywhere (`Except.error`)
means the CSV output block (lines 251-283) is never reached or never
completed. -/
def fullRun (files : List (List String)) : Except Err (List (List Val)) :=
  match processFiles files with
  | Except.error e => Except.error e
  | Except.ok p => buildRows p.2

/-! ### Auxiliary decidable predicates -/

/-- Does the label-stripping step (lines 210-217) succeed on one slot? -/
def entryOk (v : Val) : Bool :=
  match parseEntry v with
  | Except.ok _ => true
  | Except.error _ => false

/-- A month value as found in `outputMonthsArray` that the CSV builder can
render: an integer in 1..12. -/
def goodMonthVal : Val → Prop
  | Val.int m => 1 ≤ m ∧ m ≤ 12
  | Val.str _ => False

instance (v : Val) : Decidable (goodMonthVal v) :=
  match v with
  | Val.int m => (inferInstance : Decidable (1 ≤ m ∧ m ≤ 12))
  | Val.str _ => (inferInstance : Decidable False)

/-! ### Spec-side comparison definitions -/

/-- The rows the spec's Tabular Report Builder contract describes for one
emitted month: one section-title row and one column-heading row, then one
row per cycle 1..`cyclesPerBillingMonth` in order — `[cycle, fieldValues...]`
when the cell has data, else `[cycle]` padded with one empty field per data
column — then one blank separator row. -/
def monthSectionSpec (mat : Mat) (m : Int) : List (List Val) :=
  [[Val.str ((monthName m).getD "")], csvHeadingArray.map Val.str]
  ++ ((List.range' 1 cyclesPerBillingMonth).map fun cycle =>
      if mat (m * 100 + (cycle : Int)).toNat 9 = Val.int 1 then
        Val.int (cycle : Int) ::
          (List.range numFields).map fun i => mat (m * 100 + (cycle : Int)).toNat (i + 1)
      else Val.int (cycle : Int) :: List.replicate numFields (Val.str ""))
  ++ [[Val.str ""]]

/-- The per-month section as a function of a raw month value; a non-integer
month renders nothing (it would in fact crash the builder, which the
builder theorems handle via `Except`). -/
def sectionOfVal (mat : Mat) : Val → List (List Val)
  | Val.int m => monthSectionSpec mat m
  | Val.str _ => []

/-- The rows `emitCycle` contributes for one cycle of one month:
heading rows at cycle 1, the data/placeholder row, and the separator after
the last cycle.  `monthSectionSpec` is the concatenation of these chunks
over cycles 1..`cyclesPerBillingMonth`. -/
def cycleChunk (mat : Mat) (m : Int) (cycle : Nat) : List (List Val) :=
  (if cycle = 1 then
    [[Val.str ((monthName m).getD "")], csvHeadingArray.map Val.str]
  else [])
  ++ [if mat (m * 100 + (cycle : Int)).toNat 9 = Val.int 1 then
        fillOutputRow mat (m * 100 + (cycle : Int)).toNat cycle
      else Val.int (cycle : Int) :: List.replicate numFields (Val.str "")]
  ++ (if cycle = cyclesPerBillingMonth then [[Val.str ""]] else [])

/-- The spec's "months with data", before de-duplication: the row-0 value of
every flagged row, in matrix scan order. -/
def flaggedMonths (mat : Mat) : List Val :=
  (List.range 1300).filterMap fun i =>
    if mat i 9 = Val.int 1 then some (mat i 0) else none

/-- De-duplication keeping the FIRST occurrence of each value, preserving
first-seen order. -/
def dedupFirst (l : List Val) : List Val :=
  l.foldl (fun acc v => if v ∉ acc then acc ++ [v] else acc) []

/-! ### Concrete sample report lines

The report format puts the read cycle at character offsets 39-40 of the
"Read Cycle \x7b" line, the schedule day / month-abbreviation / two-digit
year at offsets 46-47 / 49-51 / 53-54 of the "Schedule Dates" line, and each
labelled field value after offset 73 of its anchor line. -/

/-- `n` copies of character `c`. -/
def padFill (n : Nat) (c : Char) : String := ⟨List.replicate n c⟩

/-- A line carrying the read-cycle marker, with the cycle digits at
offsets 39-40. -/
def sampleCycleLine (cyc : String) : String :=
  "Read Cycle \x7b" ++ padFill 27 'x' ++ cyc

/-- A line carrying "Schedule Dates", with day at offsets 46-47, month
abbreviation at 49-51 and two-digit year at 53-54. -/
def sampleScheduleLine (day mon yr : String) : String :=
  "Schedule Dates" ++ padFill 32 'x' ++ day ++ "-" ++ mon ++ "-" ++ yr

/-- A line carrying the first anchor phrase (41 characters), padded with
spaces so the field value starts at offset 73. -/
def sampleAnchorLine (v : String) : String :=
  "Total number of PODs requested - On Cycle" ++ padFill 32 ' ' ++ v

/-- A file resolving to scheduleDay=5, scheduleMonth=6 (JUN), readCycle=15,
with first field value 100: the scenario file of the spec (billing month
May, cell (5, 15)). -/
def c3File1 : List String :=
  [sampleCycleLine "15", sampleScheduleLine "05" "JUN" "21", sampleAnchorLine "100"]

/-- A file with NO "Schedule Dates" line (and no read-cycle line), carrying
first field value 200. -/
def c3File2 : List String := [sampleAnchorLine "200"]

/-- A file in which two lines contain the same anchor phrase, with distinct
trailing integers 11 (first) and 22 (last). -/
def c2Lines : List String := [sampleAnchorLine "11", sampleAnchorLine "22"]

/-- A file whose anchor line carries the non-numeric field value "N/A". -/
def c4File : List String := [sampleAnchorLine "N/A"]

/-- A matrix with exactly one flagged cell, at row 309 (month 3, cycle 9),
used to instantiate the builder theorems. -/
def c5Mat : Mat :=
  setM (setM (fun _ _ => Val.str "") 309 0 (Val.int 3)) 309 9 (Val.int 1)

/-! ### Pointwise characterization of the matrix operations -/

theorem setM_apply (m : Mat) (r c : Nat) (v : Val) (r' c' : Nat) :
    setM m r c v r' c' = if r' = r ∧ c' = c then v else m r' c' := rfl

theorem innerInit_apply (n : Nat) (m : Mat) (base : Nat) (v : Val) (r c : Nat) :
    ((List.range n).foldl (fun m' j => setM m' (base + j) 0 v) m) r c =
      if base ≤ r ∧ r < base + n ∧ c = 0 then v else m r c := by
  induction n generalizing m with
  | zero =>
    simp only [List.range_zero, List.foldl_nil]
    rw [if_neg (by omega)]
  | succ n ih =>
    rw [List.range_succ, List.foldl_append, List.foldl_cons, List.foldl_nil,
      setM_apply, ih]
    split_ifs <;> first | rfl | omega

theorem outerInit_apply (k s : Nat) (m : Mat) (r c : Nat) :
    ((List.range' s k).foldl
        (fun m' i =>
          (List.range 100).foldl (fun m'' j => setM m'' (i * 100 + j) 0 (Val.int (i : Int))) m')
        m) r c =
      if s * 100 ≤ r ∧ r < (s + k) * 100 ∧ c = 0 then Val.int ((r / 100 : Nat) : Int)
      else m r c := by
  induction k generalizing m with
  | zero =>
    simp only [List.range'_zero, List.foldl_nil]
    rw [if_neg (by omega)]
  | succ k ih =>
    rw [List.range'_1_concat, List.foldl_append, List.foldl_cons, List.foldl_nil,
      innerInit_apply, ih]
    split_ifs <;> first | rfl | omega | (congr 1; omega)

theorem outputMatrixInit_apply (r c : Nat) :
    outputMatrixInit r c =
      if 100 ≤ r ∧ r < 1300 ∧ c = 0 then Val.int ((r / 100 : Nat) : Int)
      else Val.str "" := by
  unfold outputMatrixInit
  rw [outerInit_apply]

theorem pyIdx_in (n : Nat) (i : Int) (h0 : 0 ≤ i) (h1 : i < (n : Int)) :
    pyIdx n i = some i.toNat := by
  unfold pyIdx
  rw [if_pos h0, if_pos h1]

theorem putAux_apply (n : Nat) (mat : Mat) (row : Nat) (vs : List Val) (r c : Nat) :
    ((List.range n).foldl
        (fun m i => setM (setM m row (i + 1) (vs.getD i (Val.str ""))) row 9 (Val.int 1))
        mat) r c =
      if r = row ∧ 0 < n ∧ c = 9 then Val.int 1
      else if r = row ∧ 1 ≤ c ∧ c ≤ n ∧ c ≠ 9 then vs.getD (c - 1) (Val.str "")
      else mat r c := by
  induction n generalizing mat with
  | zero =>
    simp only [List.range_zero, List.foldl_nil]
    rw [if_neg (by omega), if_neg (by omega)]
  | succ n ih =>
    rw [List.range_succ, List.foldl_append, List.foldl_cons, List.foldl_nil,
      setM_apply, setM_apply, ih]
    split_ifs <;> first
      | rfl
      | omega
      | (have he : n = c - 1 := by omega
         rw [he])

theorem put_apply (mat : Mat) (row : Nat) (vs : List Val) (r c : Nat) :
    put mat row vs r c =
      if r = row ∧ 0 < vs.length ∧ c = 9 then Val.int 1
      else if r = row ∧ 1 ≤ c ∧ c ≤ vs.length ∧ c ≠ 9 then vs.getD (c - 1) (Val.str "")
      else mat r c :=
  putAux_apply vs.length mat row vs r c

/-! ### Characterization of the anchor scan -/

/-- The `readCycle` / schedule branches of `scanLine` never touch
`results`, so the `results` component evolves by `anchorStep` alone. -/
theorem scanLine_results (st : ScanSt) (line : String) :
    (scanLine st line).results = anchorStep line st.results := by
  unfold scanLine
  split
  · split
    · split <;> rfl
    · rfl
  · split
    · split <;> rfl
    · rfl

theorem foldl_scanLine_results (lines : List String) (st : ScanSt) :
    (lines.foldl scanLine st).results =
      lines.foldl (fun rs line => anchorStep line rs) st.results := by
  induction lines generalizing st with
  | nil => rfl
  | cons l ls ih => rw [List.foldl_cons, List.foldl_cons, ih, scanLine_results]

/-- A fold that overwrites on every hit keeps the LAST matching element. -/
theorem foldl_lastMatch (p : String → Bool) (lines : List String) (init : Val) :
    lines.foldl (fun r l => if p l then Val.str l else r) init =
      match (lines.filter p).getLast? with
      | some l => Val.str l
      | none => init := by
  induction lines generalizing init with
  | nil => rfl
  | cons l ls ih =>
    rw [List.foldl_cons, ih]
    by_cases hp : p l
    · rw [List.filter_cons_of_pos hp, if_pos hp]
      cases hfl : ls.filter p with
      | nil => rfl
      | cons x xs =>
        rw [List.getLast?_cons_cons]
        obtain ⟨y, hy⟩ := Option.isSome_iff_exists.mp
          (List.getLast?_isSome.mpr (List.cons_ne_nil x xs))
        rw [hy]
    · rw [List.filter_cons_of_neg hp, if_neg hp]

/-- The slot contents after scanning a whole file, slot by slot: each anchor
phrase's slot holds the LAST line of the file containing that phrase, or
stays `"Missing"` when no line contains it. -/
theorem anchorResults_eq (lines : List String) :
    anchorResults lines =
      searchArray.map fun pat =>
        match (lines.filter fun l => strContains l pat).getLast? with
        | some l => Val.str l
        | none => Val.str "Missing" := by
  have key : ∀ (ls : List String) (g : String → Val),
      ls.foldl (fun rs line => anchorStep line rs) (searchArray.map g) =
        searchArray.map fun pat =>
          ls.foldl (fun r l => if strContains l pat then Val.str l else r) (g pat) := by
    intro ls
    induction ls with
    | nil => intro g; rfl
    | cons l ls ih =>
      intro g
      rw [List.foldl_cons]
      have hstep : anchorStep l (searchArray.map g) =
          searchArray.map fun pat => if strContains l pat then Val.str l else g pat := by
        unfold anchorStep
        rw [List.zipWith_map_right, List.zipWith_same]
      rw [hstep, ih]
      simp only [List.foldl_cons]
  unfold anchorResults
  rw [key]
  refine List.map_congr_left fun pat _ => ?_
  rw [foldl_lastMatch]

/-! ### Characterization of the label-stripping stage -/

theorem parseResults_ok (rs : List Val) (hok : ∀ v ∈ rs, entryOk v = true) :
    ∃ vs, parseResults rs = Except.ok vs ∧ vs.length = rs.length ∧
      ∀ j, j < rs.length →
        parseEntry (rs.getD j (Val.str "")) = Except.ok (vs.getD j (Val.str "")) := by
  induction rs with
  | nil =>
    refine ⟨[], rfl, rfl, ?_⟩
    intro j hj
    simp at hj
  | cons v rest ih =>
    have hv : entryOk v = true := hok v (List.mem_cons_self v rest)
    obtain ⟨v', hv'⟩ : ∃ v', parseEntry v = Except.ok v' := by
      unfold entryOk at hv
      revert hv
      cases h : parseEntry v with
      | ok w => exact fun _ => ⟨w, rfl⟩
      | error e => simp
    obtain ⟨vs, h1, h2, h3⟩ := ih fun w hw => hok w (List.mem_cons_of_mem _ hw)
    refine ⟨v' :: vs, ?_, by simp [h2], ?_⟩
    · show (match parseEntry v with
        | Except.error e => Except.error e
        | Except.ok v' =>
            match parseResults rest with
            | Except.error e => Except.error e
            | Except.ok rest' => Except.ok (v' :: rest')) = _
      rw [hv', h1]
    · intro j hj
      cases j with
      | zero => simpa using hv'
      | succ j =>
        have := h3 j (by simpa using hj)
        simpa using this

/-- No anchor phrase occurs in the literal string `"Missing"`, so a slot
holding `"Missing"` can only mean "never matched". -/
theorem missing_not_matched :
    ∀ pat ∈ searchArray, strContains "Missing" pat = false := by decide

theorem getD_mem_of_lt {α : Type _} (l : List α) (j : Nat) (d : α) (hj : j < l.length) :
    l.getD j d ∈ l := by
  induction l generalizing j with
  | nil => simp at hj
  | cons a as ih =>
    cases j with
    | zero => exact List.mem_cons_self a as
    | succ j => exact List.mem_cons_of_mem _ (ih j (by simpa using hj))

theorem getD_map_of_lt {α β : Type _} (f : α → β) (l : List α) (j : Nat) (d : β) (d2 : α)
    (hj : j < l.length) :
    (l.map f).getD j d = f (l.getD j d2) := by
  induction l generalizing j with
  | nil => simp at hj
  | cons a as ih =>
    cases j with
    | zero => rfl
    | succ j => simpa using ih j (by simpa using hj)

/-! ### Claim C2 -/

/-- C2 counterexample: in `c2Lines` two lines contain the first anchor
phrase, the FIRST carrying trailing integer 11 and the second carrying 22.
The claim predicts the value parsed from the first such line (11); the code
stores the value parsed from the LAST such line (22). -/
theorem C2_counterexample :
    (c2Lines.filter fun l => strContains l (searchArray.getD 0 "")).head? =
      some (sampleAnchorLine "11")
    ∧ parsePyInt (pyDrop (sampleAnchorLine "11") 73) = some 11
    ∧ parseResults (anchorResults c2Lines) =
        Except.ok [Val.int 22, Val.str "Missing", Val.str "Missing", Val.str "Missing",
          Val.str "Missing", Val.str "Missing", Val.str "Missing"]
    ∧ (Val.int 22 : Val) ≠ Val.int 11 := by
  refine ⟨rfl, rfl, rfl, by decide⟩

/-- C2 (amended): for each anchor phrase, processing one file's lines
yields: if some line contains the phrase as a substring, the integer parsed
from the remainder of the LAST such line after the fixed-width label prefix
(character offset 73); if no line contains the phrase, the explicit missing
marker `"Missing"`, which is forwarded to the output and does not make the
label-stripping stage fail. -/
theorem C2_last_match_extraction (lines : List String) (j : Nat)
    (hj : j < searchArray.length)
    (hok : ∀ v ∈ anchorResults lines, entryOk v = true) :
    ∃ vs, parseResults (anchorResults lines) = Except.ok vs ∧
      vs.length = searchArray.length ∧
      (match (lines.filter fun l => strContains l (searchArray.getD j "")).getLast? with
       | none => vs.getD j (Val.str "") = Val.str "Missing"
       | some l => ∃ n, parsePyInt (pyDrop l 73) = some n ∧
           vs.getD j (Val.str "") = Val.int n) := by
  obtain ⟨vs, hres, hlen, hpt⟩ := parseResults_ok _ hok
  have hARlen : (anchorResults lines).length = searchArray.length := by
    rw [anchorResults_eq]
    exact List.length_map _ _
  refine ⟨vs, hres, by rw [hlen, hARlen], ?_⟩
  have hjA : j < (anchorResults lines).length := by
    rw [hARlen]
    exact hj
  have hptj := hpt j hjA
  have hslot : (anchorResults lines).getD j (Val.str "") =
      (match (lines.filter fun l => strContains l (searchArray.getD j "")).getLast? with
       | some l => Val.str l
       | none => Val.str "Missing") := by
    rw [anchorResults_eq, getD_map_of_lt _ _ _ _ "" hj]
  rw [hslot] at hptj
  cases hlast : (lines.filter fun l => strContains l (searchArray.getD j "")).getLast? with
  | none =>
    rw [hlast] at hptj
    have hptj2 : Except.ok (Val.str "Missing") = Except.ok (vs.getD j (Val.str "")) := hptj
    exact (Except.ok.inj hptj2).symm
  | some l =>
    rw [hlast] at hptj
    have hlmem : l ∈ lines.filter fun s => strContains s (searchArray.getD j "") :=
      List.mem_of_getLast?_eq_some hlast
    have hcont : strContains l (searchArray.getD j "") = true := (List.mem_filter.mp hlmem).2
    have hpatmem : searchArray.getD j "" ∈ searchArray := getD_mem_of_lt _ _ _ hj
    have hlne : l ≠ "Missing" := by
      intro h
      rw [h, missing_not_matched _ hpatmem] at hcont
      exact Bool.noConfusion hcont
    have hne : ¬ (Val.str l = Val.str "Missing") := fun h => hlne (Val.str.inj h)
    have hpe : parseEntry (Val.str l) =
        (match parsePyInt (pyDrop l 73) with
         | some n => Except.ok (Val.int n)
         | none => Except.error Err.fieldParse) := by
      unfold parseEntry
      rw [if_neg hne]
    have hptj2 : parseEntry (Val.str l) = Except.ok (vs.getD j (Val.str "")) := hptj
    rw [hpe] at hptj2
    cases hp : parsePyInt (pyDrop l 73) with
    | none =>
      rw [hp] at hptj2
      exact Except.noConfusion hptj2
    | some n =>
      rw [hp] at hptj2
      exact ⟨n, hp, (Except.ok.inj hptj2).symm⟩

/-- C2 witness: the amended theorem applied to the concrete file `c2Lines`
at anchor index 0, with both hypotheses discharged by computation. -/
theorem C2_witness :
    (0 < searchArray.length)
    ∧ (∀ v ∈ anchorResults c2Lines, entryOk v = true)
    ∧ (∃ vs, parseResults (anchorResults c2Lines) = Except.ok vs ∧
        vs.length = searchArray.length ∧
        (match (c2Lines.filter fun l => strContains l (searchArray.getD 0 "")).getLast? with
         | none => vs.getD 0 (Val.str "") = Val.str "Missing"
         | some l => ∃ n, parsePyInt (pyDrop l 73) = some n ∧
             vs.getD 0 (Val.str "") = Val.int n)) :=
  ⟨by decide, by decide, C2_last_match_extraction c2Lines 0 (by decide) (by decide)⟩

/-! ### Claim C1 -/

/-- C1: for scheduleDay in 1..31, scheduleMonth in 1..12 and any integer
readCycle, the billing-period resolver returns scheduleMonth - 1 when
scheduleDay < 10 and readCycle > 10; otherwise scheduleMonth + 1 when
scheduleDay > cyclesPerBillingMonth - 1 and readCycle < 10; otherwise
scheduleMonth.  There is no wraparound at year boundaries: 0 and 13 are
possible outputs.  In particular (cyclesPerBillingMonth = 21),
scheduleDay=5, scheduleMonth=6, readCycle=15 yields billingMonth=5. -/
theorem C1_billing_period (d m rc : Int)
    (hd : 1 ≤ d ∧ d ≤ 31) (hm : 1 ≤ m ∧ m ≤ 12) :
    billingMonth d m rc =
      (if d < 10 ∧ rc > 10 then m - 1
       else if d > (cyclesPerBillingMonth : Int) - 1 ∧ rc < 10 then m + 1
       else m)
    ∧ billingMonth 5 6 15 = 5
    ∧ billingMonth 5 1 15 = 0
    ∧ billingMonth 25 12 5 = 13 :=
  ⟨rfl, by decide, by decide, by decide⟩

/-- C1 witness: the theorem applied at the spec's concrete scenario
(scheduleDay=5, scheduleMonth=6, readCycle=15). -/
theorem C1_witness :
    ((1 : Int) ≤ 5 ∧ (5 : Int) ≤ 31) ∧ ((1 : Int) ≤ 6 ∧ (6 : Int) ≤ 12)
    ∧ (billingMonth 5 6 15 =
        (if (5 : Int) < 10 ∧ (15 : Int) > 10 then 6 - 1
         else if (5 : Int) > (cyclesPerBillingMonth : Int) - 1 ∧ (15 : Int) < 10 then 6 + 1
         else 6)
      ∧ billingMonth 5 6 15 = 5
      ∧ billingMonth 5 1 15 = 0
      ∧ billingMonth 25 12 5 = 13) :=
  ⟨by decide, by decide, C1_billing_period 5 6 15 (by decide) (by decide)⟩

/-! ### Claim C3 -/

/-- C3: the code contradicts its own comment at line 219 ("If the file has
no schedule day ... nothing from this file will be exported").  `c3File2`
has no "Schedule Dates" line, yet after processing `[c3File1, c3File2]` the
cell (month 5, cycle 15) holds `c3File2`'s field value 200 (it held 100
after `c3File1` alone): the module-level schedule variables leak from
`c3File1` into `c3File2`'s merge, so the schedule-less file DOES contribute
to the matrix. -/
theorem C3_stale_schedule_state :
    (processFiles [c3File1]).map (fun p => (p.2 515 1, p.2 515 9)) =
      Except.ok (Val.int 100, Val.int 1)
    ∧ (processFiles [c3File1, c3File2]).map (fun p => (p.2 515 1, p.2 515 9)) =
      Except.ok (Val.int 200, Val.int 1) :=
  ⟨rfl, rfl⟩

/-! ### Claim C4 -/

theorem except_bind_ok {α β : Type _} (x : α) (g : α → Except Err β) :
    (Except.ok x >>= g) = g x := rfl

theorem foldlM_except_cons_error {σ α : Type _} (f : σ → α → Except Err σ)
    (b : σ) (a : α) (l : List α) (e : Err) (h : f b a = Except.error e) :
    List.foldlM f b (a :: l) = Except.error e := by
  rw [List.foldlM_cons, h]
  rfl

/-- A file whose label-stripping fails makes `processFile` fail with the
same error, whatever state the previous files left behind. -/
theorem processFile_error (st : ScanSt) (mat : Mat) (lines : List String) (e : Err)
    (h : parseResults (anchorResults lines) = Except.error e) :
    processFile st mat lines = Except.error e := by
  have hres : (lines.foldl scanLine
      { st with results := searchArray.map fun _ => Val.str "Missing" }).results =
      anchorResults lines := by
    rw [foldl_scanLine_results]
    rfl
  simp only [processFile]
  rw [hres, h]

/-- C4: if any line matched by an anchor phrase has a non-integer remainder
after the fixed-width label prefix, the run halts with that error at the
offending file: the remaining files are never processed and no CSV rows are
produced. -/
theorem C4_parse_failure_halts (pre post : List (List String))
    (fileLines : List String) (st : ScanSt) (mat : Mat) (e : Err)
    (hpre : processFiles pre = Except.ok (st, mat))
    (herr : parseResults (anchorResults fileLines) = Except.error e) :
    processFiles (pre ++ fileLines :: post) = Except.error e
    ∧ fullRun (pre ++ fileLines :: post) = Except.error e := by
  have hp : processFiles (pre ++ fileLines :: post) = Except.error e := by
    unfold processFiles
    rw [List.foldlM_append]
    unfold processFiles at hpre
    rw [hpre, except_bind_ok]
    exact foldlM_except_cons_error _ _ _ _ _ (processFile_error st mat fileLines e herr)
  refine ⟨hp, ?_⟩
  unfold fullRun
  rw [hp]

/-- C4 witness: the theorem applied with no preceding files, the concrete
"N/A" file `c4File`, and one further file that is indeed never reached. -/
theorem C4_witness :
    processFiles ([] : List (List String)) = Except.ok (initialScanSt, outputMatrixInit)
    ∧ parseResults (anchorResults c4File) = Except.error Err.fieldParse
    ∧ (processFiles ([] ++ c4File :: [c3File1]) = Except.error Err.fieldParse
       ∧ fullRun ([] ++ c4File :: [c3File1]) = Except.error Err.fieldParse) :=
  ⟨rfl, rfl,
    C4_parse_failure_halts [] [c3File1] c4File initialScanSt outputMatrixInit
      Err.fieldParse rfl rfl⟩

/-! ### Claim C5 -/

theorem emitCycle_eq (mat : Mat) (m : Int) (h1 : 1 ≤ m) (h2 : m ≤ 12)
    (rows : List (List Val)) (cycle : Nat)
    (hc1 : 1 ≤ cycle) (hc2 : cycle ≤ cyclesPerBillingMonth) :
    emitCycle mat m rows cycle = Except.ok (rows ++ cycleChunk mat m cycle) := by
  obtain ⟨nm, hnm⟩ : ∃ s, monthName m = some s := by
    interval_cases m <;> exact ⟨_, rfl⟩
  have hc21 : cycle ≤ 21 := hc2
  have hidx : pyIdx 1300 (cellIndex m (cycle : Int)) =
      some ((m * 100 + (cycle : Int)).toNat) := by
    unfold cellIndex
    apply pyIdx_in
    · omega
    · omega
  rcases eq_or_ne cycle 1 with hcy | hcy
  · simp only [emitCycle, hidx, hnm, cycleChunk, if_pos hcy, Option.getD_some,
      List.append_assoc]
  · simp only [emitCycle, hidx, hnm, cycleChunk, if_neg hcy, Option.getD_some,
      List.append_assoc, List.nil_append]

theorem foldlM_chunks (mat : Mat) (m : Int) (cycles : List Nat)
    (hall : ∀ c ∈ cycles, ∀ rows,
      emitCycle mat m rows c = Except.ok (rows ++ cycleChunk mat m c)) :
    ∀ rows, cycles.foldlM (emitCycle mat m) rows =
      Except.ok (rows ++ (cycles.map (cycleChunk mat m)).flatten) := by
  induction cycles with
  | nil =>
    intro rows
    simp only [List.foldlM_nil, List.map_nil, List.flatten_nil, List.append_nil]
    rfl
  | cons c cs ih =>
    intro rows
    rw [List.foldlM_cons, hall c (List.mem_cons_self c cs), except_bind_ok,
      ih (fun x hx rows2 => hall x (List.mem_cons_of_mem _ hx) rows2)]
    rw [List.map_cons, List.flatten_cons, List.append_assoc]

set_option maxRecDepth 8192 in
theorem emitCycles_eq (mat : Mat) (m : Int) (h1 : 1 ≤ m) (h2 : m ≤ 12)
    (rows : List (List Val)) :
    (List.range' 1 cyclesPerBillingMonth).foldlM (emitCycle mat m) rows =
      Except.ok (rows ++ monthSectionSpec mat m) := by
  have hall : ∀ c ∈ List.range' 1 cyclesPerBillingMonth, ∀ rows2,
      emitCycle mat m rows2 c = Except.ok (rows2 ++ cycleChunk mat m c) := by
    intro c hc rows2
    obtain ⟨i, hi, hci⟩ := List.mem_range'.mp hc
    have hi21 : i < 21 := hi
    exact emitCycle_eq mat m h1 h2 rows2 c (by omega) (by show c ≤ 21; omega)
  rw [foldlM_chunks mat m _ hall rows]
  have hflat : ((List.range' 1 cyclesPerBillingMonth).map (cycleChunk mat m)).flatten =
      monthSectionSpec mat m := rfl
  rw [hflat]

/-- C5: for every emitted month, the builder output contains, in order:
exactly one section-title row and one column-heading row (at cycle 1), then
exactly `cyclesPerBillingMonth` rows in cycle order 1..21 — `[cycle,
fieldValues...]` when the cell is flagged, else `[cycle]` followed by one
empty field per data column — then exactly one blank separator row; and
only the months of `outputMonthsArray` are emitted, in that order. -/
theorem C5_month_sections (mat : Mat)
    (hm : ∀ v ∈ outputMonthsArray mat, goodMonthVal v) :
    buildRows mat =
      Except.ok (((outputMonthsArray mat).map (sectionOfVal mat)).flatten) := by
  have key : ∀ ms : List Val, (∀ v ∈ ms, goodMonthVal v) → ∀ rows : List (List Val),
      ms.foldlM (emitMonth mat) rows =
        Except.ok (rows ++ (ms.map (sectionOfVal mat)).flatten) := by
    intro ms
    induction ms with
    | nil =>
      intro _ rows
      simp only [List.foldlM_nil, List.map_nil, List.flatten_nil, List.append_nil]
      rfl
    | cons v vs ih =>
      intro hms rows
      have hv := hms v (List.mem_cons_self v vs)
      cases v with
      | str s => exact absurd hv (by simp [goodMonthVal])
      | int m =>
        rw [List.foldlM_cons]
        have hstep : emitMonth mat rows (Val.int m) =
            Except.ok (rows ++ monthSectionSpec mat m) := by
          show (List.range' 1 cyclesPerBillingMonth).foldlM (emitCycle mat m) rows = _
          exact emitCycles_eq mat m hv.1 hv.2 rows
        rw [hstep, except_bind_ok,
          ih (fun x hx => hms x (List.mem_cons_of_mem _ hx))]
        simp only [List.map_cons, List.flatten_cons, List.append_assoc, sectionOfVal]
  have hkey := key (outputMonthsArray mat) hm []
  unfold buildRows
  rw [hkey, List.nil_append]

set_option maxRecDepth 100000 in
/-- C5 witness: the builder theorem applied to the concrete matrix `c5Mat`
(one flagged cell at month 3, cycle 9). -/
theorem C5_witness :
    (∀ v ∈ outputMonthsArray c5Mat, goodMonthVal v)
    ∧ buildRows c5Mat =
        Except.ok (((outputMonthsArray c5Mat).map (sectionOfVal c5Mat)).flatten) :=
  ⟨by decide, C5_month_sections c5Mat (by decide)⟩

/-! ### Claim C6 -/

/-- C6: when two files resolve to the same cell, the later `put` completely
replaces the earlier one's values (the earlier write is invisible in the
final state); the flag is set; and a `put` never touches any other row and
never clears an already-set flag. -/
theorem C6_last_write_wins (mat : Mat) (row : Nat) (vs1 vs2 : List Val)
    (hlen : vs1.length = vs2.length) :
    put (put mat row vs1) row vs2 = put mat row vs2
    ∧ (vs2 ≠ [] → put mat row vs2 row 9 = Val.int 1)
    ∧ (∀ r c, r ≠ row → put mat row vs2 r c = mat r c)
    ∧ (∀ r, mat r 9 = Val.int 1 → put mat row vs2 r 9 = Val.int 1) := by
  refine ⟨?_, ?_, ?_, ?_⟩
  · funext r c
    rw [put_apply, put_apply, put_apply]
    split_ifs <;> first | rfl | omega
  · intro h2
    rw [put_apply, if_pos ⟨rfl, List.length_pos.mpr h2, rfl⟩]
  · intro r c hr
    rw [put_apply, if_neg (fun h => hr h.1), if_neg (fun h => hr h.1)]
  · intro r hflag
    rw [put_apply]
    split_ifs with h1 h2
    · rfl
    · omega
    · exact hflag

/-- C6 witness: the overwrite theorem applied at row 309 with two concrete
single-value writes. -/
theorem C6_witness :
    ([Val.int 1] : List Val).length = ([Val.int 2] : List Val).length
    ∧ (put (put (fun _ _ => Val.str "") 309 [Val.int 1]) 309 [Val.int 2] =
         put (fun _ _ => Val.str "") 309 [Val.int 2]
       ∧ (([Val.int 2] : List Val) ≠ [] →
           put (fun _ _ => Val.str "") 309 [Val.int 2] 309 9 = Val.int 1)
       ∧ (∀ r c, r ≠ 309 →
           put (fun _ _ => Val.str "") 309 [Val.int 2] r c = (fun _ _ => Val.str "") r c)
       ∧ (∀ r, (fun _ _ => Val.str "") r 9 = Val.int 1 →
           put (fun _ _ => Val.str "") 309 [Val.int 2] r 9 = Val.int 1)) :=
  ⟨rfl, C6_last_write_wins (fun _ _ => Val.str "") 309 [Val.int 1] [Val.int 2] rfl⟩

/-! ### Claim C10 -/

/-- C10: `put` is idempotent — applying it twice in succession with the same
(row, fieldValues) leaves the matrix exactly as applying it once. -/
theorem C10_put_idempotent (mat : Mat) (row : Nat) (vs : List Val) :
    put (put mat row vs) row vs = put mat row vs := by
  funext r c
  rw [put_apply, put_apply]
  split_ifs <;> rfl

/-! ### Claim C7 -/

theorem fold_dedup_fusion (mat : Mat) (l : List Nat) (acc : List Val) :
    l.foldl (fun acc i =>
        if mat i 9 = Val.int 1 then
          if mat i 0 ∉ acc then acc ++ [mat i 0] else acc
        else acc) acc =
      (l.filterMap fun i =>
        if mat i 9 = Val.int 1 then some (mat i 0) else none).foldl
          (fun acc v => if v ∉ acc then acc ++ [v] else acc) acc := by
  induction l generalizing acc with
  | nil => rfl
  | cons i is ih =>
    by_cases hf : mat i 9 = Val.int 1
    · simp only [List.foldl_cons, List.filterMap_cons, if_pos hf]
      exact ih _
    · simp only [List.foldl_cons, List.filterMap_cons, if_neg hf]
      exact ih acc

theorem dedup_fold_nodup (l : List Val) (acc : List Val) (hacc : acc.Nodup) :
    (l.foldl (fun acc v => if v ∉ acc then acc ++ [v] else acc) acc).Nodup := by
  induction l generalizing acc with
  | nil => exact hacc
  | cons v vs ih =>
    rw [List.foldl_cons]
    by_cases hv : v ∈ acc
    · rw [if_neg (by simpa using hv)]
      exact ih acc hacc
    · rw [if_pos hv]
      refine ih _ ?_
      rw [← List.concat_eq_append]
      exact List.Nodup.concat hv hacc

theorem dedup_fold_mem (l : List Val) (acc : List Val) (v : Val) :
    (v ∈ l.foldl (fun acc w => if w ∉ acc then acc ++ [w] else acc) acc) ↔
      v ∈ acc ∨ v ∈ l := by
  induction l generalizing acc with
  | nil => simp
  | cons w ws ih =>
    rw [List.foldl_cons]
    by_cases hw : w ∈ acc
    · rw [if_neg (by simpa using hw), ih]
      simp only [List.mem_cons]
      constructor
      · rintro (h | h)
        · exact Or.inl h
        · exact Or.inr (Or.inr h)
      · rintro (h | rfl | h)
        · exact Or.inl h
        · exact Or.inl hw
        · exact Or.inr h
    · rw [if_pos hw, ih]
      simp only [List.mem_append, List.mem_singleton, List.mem_cons]
      tauto

/-- C7: after processing, `outputMonthsArray` holds exactly the distinct
row-0 (billing-month) values of the flagged cells, each once, in first-seen
order of the index-order scan of the matrix; the builder (`buildRows`)
iterates exactly this list. -/
theorem C7_months_with_data (mat : Mat) :
    outputMonthsArray mat = dedupFirst (flaggedMonths mat)
    ∧ (outputMonthsArray mat).Nodup
    ∧ ∀ v, v ∈ outputMonthsArray mat ↔
        ∃ i, i < 1300 ∧ mat i 9 = Val.int 1 ∧ mat i 0 = v := by
  have h1 : outputMonthsArray mat = dedupFirst (flaggedMonths mat) := by
    unfold outputMonthsArray dedupFirst flaggedMonths
    exact fold_dedup_fusion mat (List.range 1300) []
  refine ⟨h1, ?_, ?_⟩
  · rw [h1]
    unfold dedupFirst
    exact dedup_fold_nodup _ [] List.nodup_nil
  · intro v
    rw [h1]
    unfold dedupFirst
    rw [dedup_fold_mem]
    simp only [List.not_mem_nil, false_or]
    unfold flaggedMonths
    rw [List.mem_filterMap]
    constructor
    · rintro ⟨i, hi, hfi⟩
      rw [List.mem_range] at hi
      by_cases hf : mat i 9 = Val.int 1
      · rw [if_pos hf] at hfi
        exact ⟨i, hi, hf, Option.some.inj hfi⟩
      · rw [if_neg hf] at hfi
        exact Option.noConfusion hfi
    · rintro ⟨i, hi, hf, hv⟩
      exact ⟨i, List.mem_range.mpr hi, by rw [if_pos hf, hv]⟩

/-! ### Claim C8 -/

/-- C8: the cell address `billingMonth * 100 + readCycle` is injective over
months 1..12 and cycles 0..99, stays within the 1300-row matrix bounds, and
orders cells month-major. -/
theorem C8_cell_addressing (m1 c1 m2 c2 : Int)
    (h1 : 1 ≤ m1 ∧ m1 ≤ 12) (hc1 : 0 ≤ c1 ∧ c1 ≤ 99)
    (h2 : 1 ≤ m2 ∧ m2 ≤ 12) (hc2 : 0 ≤ c2 ∧ c2 ≤ 99) :
    (cellIndex m1 c1 = cellIndex m2 c2 → m1 = m2 ∧ c1 = c2)
    ∧ (0 ≤ cellIndex m1 c1 ∧ cellIndex m1 c1 < 1300)
    ∧ (m1 < m2 → cellIndex m1 c1 < cellIndex m2 c2) := by
  unfold cellIndex
  omega

/-- C8 witness: the addressing theorem applied at cells (3, 9) and (5, 15). -/
theorem C8_witness :
    ((1 : Int) ≤ 3 ∧ (3 : Int) ≤ 12) ∧ ((0 : Int) ≤ 9 ∧ (9 : Int) ≤ 99)
    ∧ ((1 : Int) ≤ 5 ∧ (5 : Int) ≤ 12) ∧ ((0 : Int) ≤ 15 ∧ (15 : Int) ≤ 99)
    ∧ ((cellIndex 3 9 = cellIndex 5 15 → (3 : Int) = 5 ∧ (9 : Int) = 15)
       ∧ (0 ≤ cellIndex 3 9 ∧ cellIndex 3 9 < 1300)
       ∧ ((3 : Int) < 5 → cellIndex 3 9 < cellIndex 5 15)) :=
  ⟨by decide, by decide, by decide, by decide,
    C8_cell_addressing 3 9 5 15 (by decide) (by decide) (by decide) (by decide)⟩

/-! ### Claim C9 -/

/-- C9 counterexample: initialization pre-fills the MONTH number, not the
cycle number: the cell for (month 1, cycle 2) — row 1*100+2 — holds 1 (the
month) in its pre-filled column, not 2 (the cycle). -/
theorem C9_counterexample :
    outputMatrixInit (1 * 100 + 2) 0 = Val.int 1 ∧ Val.int 1 ≠ Val.int 2 := by
  refine ⟨?_, by decide⟩
  rw [outputMatrixInit_apply, if_pos (by omega : 100 ≤ 1 * 100 + 2 ∧ 1 * 100 + 2 < 1300 ∧ 0 = 0)]
  norm_num

/-- C9 (amended): initialization creates, for every (month 1..12, cycle
0..99) combination, a cell with its hasData flag unset, empty field values,
and the MONTH number pre-filled in the cell. -/
theorem C9_init_cells (m c : Nat) (hm : 1 ≤ m ∧ m ≤ 12) (hc : c ≤ 99) :
    outputMatrixInit (m * 100 + c) 0 = Val.int (m : Int)
    ∧ (∀ col, 1 ≤ col → col ≤ 9 → outputMatrixInit (m * 100 + c) col = Val.str "")
    ∧ outputMatrixInit (m * 100 + c) 9 ≠ Val.int 1 := by
  refine ⟨?_, ?_, ?_⟩
  · rw [outputMatrixInit_apply, if_pos (by omega : 100 ≤ m * 100 + c ∧ m * 100 + c < 1300 ∧ 0 = 0)]
    congr 1
    omega
  · intro col h1 h9
    rw [outputMatrixInit_apply, if_neg (by omega)]
  · rw [outputMatrixInit_apply, if_neg (by omega)]
    simp

/-- C9 witness: the amended initialization theorem applied at
(month 5, cycle 15). -/
theorem C9_witness :
    (1 ≤ 5 ∧ 5 ≤ 12) ∧ (15 ≤ 99)
    ∧ (outputMatrixInit (5 * 100 + 15) 0 = Val.int (5 : Int)
       ∧ (∀ col, 1 ≤ col → col ≤ 9 → outputMatrixInit (5 * 100 + 15) col = Val.str "")
       ∧ outputMatrixInit (5 * 100 + 15) 9 ≠ Val.int 1) :=
  ⟨by decide, by decide, C9_init_cells 5 15 (by decide) (by decide)⟩

end Mrr2Csv
